import Mathlib

/-
Verification of the CWB/Edge raw-input protocol client in smdb/cwb.py.

Embedding conventions:
- Python floats (sample rates, times) are embedded as exact rationals; the
  boundary constants 0.9999, 0.001 and 1e-8 become the rationals 9999/10000,
  1/1000 and 1/100000000.  Python int() truncation toward zero is pyint.
- struct.pack is injective on its argument tuple for a fixed format string, so
  a packet is embedded as the tuple of fields the source passes to struct.pack
  (structure EdgePacket), with the trailing integer samples as a list.
- A UTCDateTime is embedded as a rational number of seconds; _get_time_values
  decomposes an instant injectively into (yr, doy, secs, usecs), so EdgePacket
  records the instant itself in its time field.
- Socket I/O is embedded as deterministic state passing over NetState: the
  outcome of each socket.connect is given by an oracle (attempt index to Bool),
  the outcome of socket.sendall of a data buffer by a Bool, and the observable
  actions (1-second sleeps, the tag send during _open_socket, each packet
  send) are recorded as events.  The tag sendall during _open_socket is taken
  to succeed, as in the connection stubs the specification describes.
-/

namespace Cwb

/-- Constant MAXINPUTSIZE from cwb.py: Edge uses a short for the data count,
so the max input size for a single data packet is 32767. -/
def MAXINPUTSIZE : ℤ := 32767

/-- Constant PACKETHEAD from cwb.py: the code that leads a packet sent to Edge. -/
def PACKETHEAD : ℕ := 0xa1b2

/-- Constant TAG from cwb.py: nsamp value marking a tag packet. -/
def TAG : ℤ := -1

/-- Constant FORCEOUT from cwb.py: nsamp value marking a forceout packet. -/
def FORCEOUT : ℤ := -2

/-- Python int() on a rational: truncation toward zero. -/
def pyint (x : ℚ) : ℤ := if 0 ≤ x then ⌊x⌋ else -⌊-x⌋

/-- Embedding of RawInputClient._get_mantissa_divisor (cwb.py lines 364-387):
if rate > 0.9999 the pair is (int(rate*100 + 0.001), -100); otherwise if
rate*60 - 1.0 < 1e-8 (the branch the source comments as one minute data) the
pair is (-60, 1); otherwise (int(rate*10000 + 0.001), -10000). -/
def get_mantissa_divisor (rate : ℚ) : ℤ × ℤ :=
  if (9999 : ℚ) / 10000 < rate then (pyint (rate * 100 + 1 / 1000), -100)
  else if rate * 60 - 1 < 1 / 100000000 then (-60, 1)
  else (pyint (rate * 10000 + 1 / 1000), -10000)

/-- Python str.ljust: right-pad with spaces to the given width. -/
def ljust (s : String) (w : ℕ) : String :=
  s ++ String.mk (List.replicate (w - s.length) ' ')

/-- Embedding of RawInputClient.create_seedname:
network + observatory.ljust(5) + channel + location. -/
def create_seedname (observatory channel location network : String) : String :=
  network ++ ljust observatory 5 ++ channel ++ location

/-- Field tuple of a packet: the arguments the source passes to struct.pack
with format PACKSTR, plus the trailing samples array (absent for a forceout).
The (yr, doy, secs, usecs) quadruple of _get_time_values is replaced by the
rational instant it injectively encodes. -/
structure EdgePacket where
  head : ℕ
  nsamp : ℤ
  seedname : String
  time : ℚ
  ratemantissa : ℤ
  ratedivisor : ℤ
  activity : ℕ
  ioclock : ℕ
  quality : ℕ
  timingquality : ℕ
  seq : ℤ
  samples : List ℤ
deriving Repr, DecidableEq

/-- Mutable instance state of RawInputClient: the fields set by __init__.
The socket field is None or an open handle. -/
structure RawInputClient where
  tag : String
  host : String
  port : ℕ
  activity : ℕ
  ioclock : ℕ
  quality : ℕ
  timingquality : ℕ
  socket : Option Unit
  sequence : ℤ
  seedname : String
deriving Repr, DecidableEq

/-- Observable network actions of the client. -/
inductive NetEvent where
  | sleep1 : NetEvent
  | tagSent : String → NetEvent
  | packetSent : EdgePacket → NetEvent
deriving Repr, DecidableEq

/-- Client state plus the I/O trace: total connect attempts made so far and
the list of observable events. -/
structure NetState where
  client : RawInputClient
  attempts : ℕ
  events : List NetEvent
deriving Repr, DecidableEq

/-- Embedding of RawInputClient.__init__ (cwb.py lines 129-149): set the
fields, socket None, sequence 0, build the seedname, then fail when the tag
exceeds 10 characters.  The constructor performs no socket operation, so the
returned trace state has zero connect attempts and no events. -/
def init (tag host : String) (port : ℕ)
    (station channel location network : String)
    (activity ioclock quality timingquality : ℕ) : Except String NetState :=
  let c : RawInputClient :=
    { tag := tag, host := host, port := port, activity := activity,
      ioclock := ioclock, quality := quality, timingquality := timingquality,
      socket := none, sequence := 0,
      seedname := create_seedname station channel location network }
  if 10 < tag.length then Except.error "Tag limited to 10 characters"
  else Except.ok { client := c, attempts := 0, events := [] }

/-- Embedding of RawInputClient.close (cwb.py lines 151-156): drop the socket
if present.  Idempotent. -/
def close (s : NetState) : NetState :=
  { s with client := { s.client with socket := none } }

/-- Embedding of RawInputClient._get_tag: the tag right-padded with spaces and
cut to 12 characters (the content of the 40-byte tag packet; its other fields
are the head, nsamp = TAG and six zeros). -/
def get_tag (c : RawInputClient) : String :=
  (c.tag ++ "            ").take 12

/-- Embedding of RawInputClient._get_data (cwb.py lines 309-362): fail when
len(samples) > 32767, otherwise pack a data packet whose nsamp field is the
sample count and whose seq field is the current sequence number. -/
def get_data (c : RawInputClient) (samples : List ℤ) (time rate : ℚ) :
    Except String EdgePacket :=
  if 32767 < (samples.length : ℤ) then
    Except.error "Edge input limited to 32767 integers per packet."
  else
    let md := get_mantissa_divisor rate
    Except.ok
      { head := PACKETHEAD, nsamp := (samples.length : ℤ), seedname := c.seedname,
        time := time, ratemantissa := md.1, ratedivisor := md.2,
        activity := c.activity, ioclock := c.ioclock, quality := c.quality,
        timingquality := c.timingquality, seq := c.sequence, samples := samples }

/-- Embedding of RawInputClient._get_forceout (cwb.py lines 264-307): pack a
packet with nsamp = FORCEOUT, the rate fields from _get_mantissa_divisor, the
current sequence number, and no samples. -/
def get_forceout (c : RawInputClient) (time rate : ℚ) : EdgePacket :=
  let md := get_mantissa_divisor rate
  { head := PACKETHEAD, nsamp := FORCEOUT, seedname := c.seedname,
    time := time, ratemantissa := md.1, ratedivisor := md.2,
    activity := c.activity, ioclock := c.ioclock, quality := c.quality,
    timingquality := c.timingquality, seq := c.sequence, samples := [] }

/-- One pass through the while loop of RawInputClient._open_socket (cwb.py
lines 433-457), with trys the local counter.  Each pass makes one connect
attempt; on failure it sleeps 1 second; then, whether or not the attempt
succeeded, it raises when trys > 2 and otherwise increments trys.  Only when
the loop is left normally is the socket stored and the tag packet sent.  The
loop always stops within four passes: on a success with trys <= 2, or by the
raise once trys exceeds 2. -/
def openLoop (connects : ℕ → Bool) (trys : ℕ) (s : NetState) :
    NetState × Option String :=
  let n := s.attempts
  let s1 : NetState := { s with attempts := n + 1 }
  if connects n then
    if 2 < trys then (s1, some "Could not open socket")
    else
      ({ s1 with
          client := { s1.client with socket := some () },
          events := s1.events ++ [NetEvent.tagSent (get_tag s1.client)] }, none)
  else
    let s2 : NetState := { s1 with events := s1.events ++ [NetEvent.sleep1] }
    if h : 2 < trys then (s2, some "Could not open socket")
    else openLoop connects (trys + 1) s2
termination_by 3 - trys
decreasing_by omega

/-- Embedding of RawInputClient._open_socket: run the retry loop with the
local counter trys starting at 0. -/
def open_socket (connects : ℕ → Bool) (s : NetState) : NetState × Option String :=
  openLoop connects 0 s

/-- The socket.sendall of a data buffer followed by the sequence increment in
RawInputClient._send: on success record the packet and increment the sequence;
on a socket error raise without touching the sequence. -/
def sendPacket (sendOk : Bool) (p : EdgePacket) (s : NetState) :
    NetState × Option String :=
  if sendOk then
    ({ s with
        client := { s.client with sequence := s.client.sequence + 1 },
        events := s.events ++ [NetEvent.packetSent p] }, none)
  else (s, some "Socket error")

/-- Embedding of RawInputClient._send (cwb.py lines 233-262): when the socket
is None, first open it (a failure there propagates); then sendall the buffer
and increment the sequence. -/
def send (connects : ℕ → Bool) (sendOk : Bool) (p : EdgePacket) (s : NetState) :
    NetState × Option String :=
  match s.client.socket with
  | none =>
    match open_socket connects s with
    | (s1, some e) => (s1, some e)
    | (s1, none) => sendPacket sendOk p s1
  | some _ => sendPacket sendOk p s

/-- Embedding of RawInputClient.forceout (cwb.py lines 187-198): encode a
forceout packet at the current wall-clock instant with rate 0 and send it. -/
def forceout (connects : ℕ → Bool) (sendOk : Bool) (tnow : ℚ) (s : NetState) :
    NetState × Option String :=
  send connects sendOk (get_forceout s.client tnow 0) s

/-- An obspy trace as send_trace consumes it: sample values, start time and
sampling rate; sample j lies at time starttime + j / sampling_rate. -/
structure Trace where
  data : List ℤ
  starttime : ℚ
  sampling_rate : ℚ
deriving Repr, DecidableEq

/-- Model of obspy Trace.slice(s, e).data: the samples whose index lies in the
window from the sample nearest to s to the sample nearest to e, clipped to the
trace; all slice boundaries reached in this development fall exactly on sample
instants, so the tie-breaking of the nearest-sample rounding is immaterial. -/
def Trace.sliceData (tr : Trace) (s e : ℚ) : List ℤ :=
  let startI : ℤ := max 0 (round ((s - tr.starttime) * tr.sampling_rate))
  let endI : ℤ :=
    min ((tr.data.length : ℤ) - 1) (round ((e - tr.starttime) * tr.sampling_rate))
  (tr.data.drop startI.toNat).take (endI + 1 - startI).toNat

/-- The index sequence denoted by Python range(0, stop, step) for a positive
step: the multiples of step below stop. -/
def rangeBy (stop step : ℚ) : List ℚ :=
  if step ≤ 0 then []
  else (List.range (Int.toNat ⌈stop / step⌉)).map (fun k => (k : ℚ) * step)

/-- Body of the for loop of RawInputClient.send_trace (cwb.py lines 200-231),
iterated over the precomputed index list, threading the mutated starttime and
nsamp variables.  Each pass clips the chunk bound to the remaining samples,
slices the trace between starttime and starttime + (nsamp - 1) * 60, packs the
slice with _get_data and sends it, then advances starttime by nsamp * 60
(timeoffset is the literal 60 in the source).  An exception from _get_data or
_send aborts the remaining passes. -/
def sendTraceLoop (connects : ℕ → Bool) (sendOk : Bool) (tr : Trace) :
    List ℚ → ℚ → ℚ → NetState → NetState × Option String
  | [], _, _, s => (s, none)
  | i :: rest, starttime, nsampPrev, s =>
    let totalsamps : ℚ := (tr.data.length : ℚ)
    let endsample : ℚ := if totalsamps - i < nsampPrev then totalsamps else i + nsampPrev
    let nsamp : ℚ := endsample - i
    let endtime : ℚ := starttime + (nsamp - 1) * 60
    let chunk : List ℤ := tr.sliceData starttime endtime
    match get_data s.client chunk starttime tr.sampling_rate with
    | Except.error e => (s, some e)
    | Except.ok p =>
      match send connects sendOk p s with
      | (s1, some e) => (s1, some e)
      | (s1, none) => sendTraceLoop connects sendOk tr rest (starttime + nsamp * 60) nsamp s1

/-- Embedding of RawInputClient.send_trace: loop over range(0, totalsamps,
nsamp) where nsamp starts as sampling_rate * 60 (the range step is fixed when
the loop is entered), with starttime starting at the trace start. -/
def send_trace (connects : ℕ → Bool) (sendOk : Bool) (tr : Trace) (s : NetState) :
    NetState × Option String :=
  let nsamp0 : ℚ := tr.sampling_rate * 60
  sendTraceLoop connects sendOk tr (rangeBy (tr.data.length : ℚ) nsamp0)
    tr.starttime nsamp0 s

/-- The data/forceout packets transmitted in a trace, in order. -/
def sentPackets (s : NetState) : List EdgePacket :=
  s.events.filterMap (fun e =>
    match e with
    | NetEvent.packetSent p => some p
    | _ => none)

/-- Number of 1-second sleeps in a trace. -/
def sleepCount (s : NetState) : ℕ :=
  s.events.countP (fun e =>
    match e with
    | NetEvent.sleep1 => true
    | _ => false)

/-- Number of tag packets transmitted in a trace. -/
def tagCount (s : NetState) : ℕ :=
  s.events.countP (fun e =>
    match e with
    | NetEvent.tagSent _ => true
    | _ => false)

/-- A concrete client as built by __init__ with a valid 7-character tag. -/
def exampleClient : RawInputClient :=
  { tag := "testtag", host := "h", port := 2060, activity := 0, ioclock := 0,
    quality := 0, timingquality := 0, socket := none, sequence := 0,
    seedname := create_seedname "ANMO" "BH1" "10" "IU" }

/-- Fresh trace state for exampleClient: no attempts, no events. -/
def exampleNet : NetState :=
  { client := exampleClient, attempts := 0, events := [] }

/-- exampleNet with the socket already open and the tag sent. -/
def exampleOpenNet : NetState :=
  { client := { exampleClient with socket := some () }, attempts := 1,
    events := [NetEvent.tagSent (get_tag exampleClient)] }

/-- The channel of the specification scenario: 150 samples of 1 Hz data,
starting at instant 0. -/
def exampleTrace : Trace :=
  { data := List.replicate 150 0, starttime := 0, sampling_rate := 1 }

/-- A concrete data packet, used to drive the connection model. -/
def examplePacket : EdgePacket :=
  { head := PACKETHEAD, nsamp := 1, seedname := exampleClient.seedname, time := 0,
    ratemantissa := 100, ratedivisor := -100, activity := 0, ioclock := 0,
    quality := 0, timingquality := 0, seq := 0, samples := [7] }

/-- First data packet of the 150-sample 1 Hz run: because timeoffset is 60
seconds rather than one sample period, the first slice reaches 3540 seconds
into the trace and so carries all 150 samples. -/
def pkt0 : EdgePacket :=
  { head := PACKETHEAD, nsamp := 150, seedname := exampleClient.seedname, time := 0,
    ratemantissa := 100, ratedivisor := -100, activity := 0, ioclock := 0,
    quality := 0, timingquality := 0, seq := 0, samples := List.replicate 150 0 }

/-- Second data packet of the run: its start time lies 3600 seconds past the
trace start, beyond the trace end, so its slice is empty. -/
def pkt1 : EdgePacket :=
  { head := PACKETHEAD, nsamp := 0, seedname := exampleClient.seedname, time := 3600,
    ratemantissa := 100, ratedivisor := -100, activity := 0, ioclock := 0,
    quality := 0, timingquality := 0, seq := 1, samples := [] }

/-- Third data packet of the run: start time 7200 seconds past the trace
start, again an empty slice. -/
def pkt2 : EdgePacket :=
  { head := PACKETHEAD, nsamp := 0, seedname := exampleClient.seedname, time := 7200,
    ratemantissa := 100, ratedivisor := -100, activity := 0, ioclock := 0,
    quality := 0, timingquality := 0, seq := 2, samples := [] }

/-- The forceout packet sent by an explicit forceout() after the run, at the
arbitrary wall-clock instant 150: rate 0 lands in the one-minute branch of
_get_mantissa_divisor, so the rate fields are (-60, 1). -/
def pkt3 : EdgePacket :=
  { head := PACKETHEAD, nsamp := -2, seedname := exampleClient.seedname, time := 150,
    ratemantissa := -60, ratedivisor := 1, activity := 0, ioclock := 0,
    quality := 0, timingquality := 0, seq := 3, samples := [] }

/-- Final state of send_trace on the 150-sample 1 Hz channel. -/
def run150State : NetState :=
  { client := { exampleClient with socket := some (), sequence := 3 },
    attempts := 1,
    events := [NetEvent.tagSent (get_tag exampleClient),
               NetEvent.packetSent pkt0, NetEvent.packetSent pkt1,
               NetEvent.packetSent pkt2] }

/-- On a nonnegative argument, Python int() agrees with the floor. -/
lemma pyint_of_nonneg {x : ℚ} (h : 0 ≤ x) : pyint x = ⌊x⌋ := by
  simp [pyint, h]

/-- At rate 1 Hz the codec takes the first branch and yields (100, -100). -/
lemma gmd_one : get_mantissa_divisor 1 = (100, -100) := by
  have hf : ⌊(100001:ℚ)/1000⌋ = 100 := by
    rw [Int.floor_eq_iff]
    norm_num
  rw [get_mantissa_divisor, if_pos (by norm_num), pyint_of_nonneg (by norm_num),
    show ((1:ℚ) * 100 + 1 / 1000) = 100001/1000 by norm_num, hf]

/-- At rate 0 (the rate forceout() passes) the codec takes the branch the
source comments as one minute data and yields (-60, 1). -/
lemma gmd_zero : get_mantissa_divisor 0 = (-60, 1) := by
  rw [get_mantissa_divisor, if_neg (by norm_num), if_pos (by norm_num)]

/-- Claim C4, counterexample.  The rate r = 1/100 lies in (0, 0.9999] and is
not within 1e-8 of 1/60, so the claim requires the encoder to yield
(round(r * 10000), -10000) = (100, -10000); the code yields (-60, 1), because
its one-minute test rate*60 - 1 < 1e-8 is one-sided and admits every rate
below roughly 1/60. -/
theorem c4_counterexample :
    (0 < (1:ℚ)/100 ∧ (1:ℚ)/100 ≤ 9999/10000 ∧
      ¬|(1:ℚ)/100 - 1/60| ≤ 1/100000000) ∧
    get_mantissa_divisor (1/100) = (-60, 1) ∧
    round ((1:ℚ)/100 * 10000) = 100 ∧
    ((-60 : ℤ), (1 : ℤ)) ≠ ((100 : ℤ), (-10000 : ℤ)) := by
  refine ⟨⟨by norm_num, by norm_num, ?_⟩, ?_, ?_, by decide⟩
  · rw [abs_le]
    norm_num
  · rw [get_mantissa_divisor, if_neg (by norm_num), if_pos (by norm_num)]
  · rw [show ((1:ℚ)/100 * 10000) = 100 by norm_num]
    simp

/-- Claim C4, amended.  For r in (0, 0.9999]: when r*60 - 1 < 1e-8 (which
holds for every r up to about 1/60 + 1.67e-10, not only for r within 1e-8 of
1/60) the encoder yields exactly (-60, 1); for every other r in the interval
it yields (int(r*10000 + 0.001), -10000), whose decoded value m/10000
reproduces r to within 1/10000. -/
theorem c4_amended (r : ℚ) (h0 : 0 < r) (h1 : r ≤ 9999/10000) :
    (r * 60 - 1 < 1/100000000 → get_mantissa_divisor r = (-60, 1)) ∧
    (¬(r * 60 - 1 < 1/100000000) →
      get_mantissa_divisor r = (pyint (r * 10000 + 1/1000), -10000) ∧
      |r - (pyint (r * 10000 + 1/1000) : ℚ) / 10000| < 1/10000) := by
  have hnotgt : ¬((9999 : ℚ) / 10000 < r) := not_lt.mpr h1
  constructor
  · intro hm
    rw [get_mantissa_divisor, if_neg hnotgt, if_pos hm]
  · intro hm
    have harg : (0:ℚ) ≤ r * 10000 + 1/1000 := by positivity
    refine ⟨by rw [get_mantissa_divisor, if_neg hnotgt, if_neg hm], ?_⟩
    rw [pyint_of_nonneg harg]
    have hfl := Int.floor_le (r * 10000 + 1/1000)
    have hfu := Int.lt_floor_add_one (r * 10000 + 1/1000)
    rw [abs_lt]
    constructor <;> [skip; skip] <;> push_cast at hfl hfu ⊢ <;> linarith

/-- Claim C4, witness: the amended theorem applied at r = 1/2 (not a
one-minute rate), where the encoder yields (5000, -10000). -/
theorem c4_witness : get_mantissa_divisor (1/2) = (5000, -10000) := by
  have h := ((c4_amended (1/2) (by norm_num) (by norm_num)).2 (by norm_num)).1
  rw [h]
  have hp : pyint ((1:ℚ)/2 * 10000 + 1/1000) = 5000 := by
    rw [pyint_of_nonneg (by norm_num)]
    rw [show ((1:ℚ)/2 * 10000 + 1/1000) = 5000001/1000 by norm_num]
    rw [Int.floor_eq_iff]
    norm_num
  rw [hp]

/-- Claim C5, counterexample.  At r = 1.006 the claim requires mantissa =
round(r * 100) = round(100.6) = 101; the code computes int(r*100 + 0.001) =
int(100.601) = 100, truncating rather than rounding, so the decoded value is
1.00 rather than r rounded to 2 decimal digits (1.01). -/
theorem c5_counterexample :
    ((9999:ℚ)/10000 < 1006/1000) ∧
    get_mantissa_divisor (1006/1000) = (100, -100) ∧
    round ((1006:ℚ)/1000 * 100) = 101 ∧
    ((100 : ℤ), (-100 : ℤ)) ≠ ((101 : ℤ), (-100 : ℤ)) := by
  refine ⟨by norm_num, ?_, ?_, by decide⟩
  · have hf : ⌊(100601:ℚ)/1000⌋ = 100 := by
      rw [Int.floor_eq_iff]
      norm_num
    rw [get_mantissa_divisor, if_pos (by norm_num), pyint_of_nonneg (by norm_num),
      show ((1006:ℚ)/1000 * 100 + 1 / 1000) = 100601/1000 by norm_num, hf]
  · rw [round_eq]
    rw [show ((1006:ℚ)/1000 * 100 + 1/2) = 1011/10 by norm_num]
    rw [Int.floor_eq_iff]
    norm_num

/-- Claim C5, amended.  For every r > 0.9999 the encoder yields
(int(r*100 + 0.001), -100) - truncation with a 0.001 guard, not rounding -
and the decoded value m/100 reproduces r to within 1/100. -/
theorem c5_amended (r : ℚ) (h : (9999:ℚ)/10000 < r) :
    get_mantissa_divisor r = (pyint (r * 100 + 1/1000), -100) ∧
    |r - (pyint (r * 100 + 1/1000) : ℚ) / 100| < 1/100 := by
  have harg : (0:ℚ) ≤ r * 100 + 1/1000 := by nlinarith
  refine ⟨by rw [get_mantissa_divisor, if_pos h], ?_⟩
  rw [pyint_of_nonneg harg]
  have hfl := Int.floor_le (r * 100 + 1/1000)
  have hfu := Int.lt_floor_add_one (r * 100 + 1/1000)
  rw [abs_lt]
  constructor <;> [skip; skip] <;> push_cast at hfl hfu ⊢ <;> linarith

/-- Claim C5, witness: the amended theorem applied at r = 100 Hz, where the
encoder yields (10000, -100). -/
theorem c5_witness : get_mantissa_divisor 100 = (10000, -100) := by
  have h := (c5_amended 100 (by norm_num)).1
  rw [h]
  have hp : pyint ((100:ℚ) * 100 + 1/1000) = 10000 := by
    rw [pyint_of_nonneg (by norm_num)]
    rw [show ((100:ℚ) * 100 + 1/1000) = 10000001/1000 by norm_num]
    rw [Int.floor_eq_iff]
    norm_num
  rw [hp]

/-- Claim C6, counterexample.  The forceout encoder is always invoked with
rate 0, which falls into the one-minute branch of _get_mantissa_divisor, so
the packet carries rate fields (-60, 1), not the zero rate fields the claim
requires. -/
theorem c6_counterexample :
    (get_forceout exampleClient 0 0).nsamp = -2 ∧
    (get_forceout exampleClient 0 0).samples = [] ∧
    (get_forceout exampleClient 0 0).ratemantissa = -60 ∧
    (get_forceout exampleClient 0 0).ratedivisor = 1 ∧
    ¬((get_forceout exampleClient 0 0).ratemantissa = 0 ∧
      (get_forceout exampleClient 0 0).ratedivisor = 0) := by
  simp [get_forceout, gmd_zero, FORCEOUT]

/-- Claim C6, amended.  Every forceout packet has sample-count field -2 and
carries no sample payload; its rate fields are (-60, 1) rather than (0, 0),
because the rate-0 argument of forceout() lands in the one-minute branch of
the rate encoder. -/
theorem c6_amended (c : RawInputClient) (tnow : ℚ) :
    (get_forceout c tnow 0).nsamp = FORCEOUT ∧
    (get_forceout c tnow 0).samples = [] ∧
    (get_forceout c tnow 0).ratemantissa = -60 ∧
    (get_forceout c tnow 0).ratedivisor = 1 := by
  simp [get_forceout, gmd_zero]

/-- Claim C7: encoding a data packet fails exactly when the sample array has
more than 32767 elements, and on success the nsamp field equals the sample
count. -/
theorem c7_payload_limit (c : RawInputClient) (samples : List ℤ) (time rate : ℚ) :
    ((get_data c samples time rate).isOk = true ↔ samples.length ≤ 32767) ∧
    (samples.length ≤ 32767 →
      ∃ p, get_data c samples time rate = Except.ok p ∧
        p.nsamp = (samples.length : ℤ) ∧ p.samples = samples) := by
  by_cases hlen : 32767 < (samples.length : ℤ)
  · have hn : ¬samples.length ≤ 32767 := by exact_mod_cast not_le.mpr hlen
    rw [get_data, if_pos hlen]
    simp [Except.isOk, Except.toBool, hn]
  · have hn : samples.length ≤ 32767 := by omega
    rw [get_data, if_neg hlen]
    simp [Except.isOk, Except.toBool, hn]

/-- Claim C7, witness: 32767 samples encode successfully, 32768 fail. -/
theorem c7_witness :
    (get_data exampleClient (List.replicate 32767 0) 0 1).isOk = true ∧
    (get_data exampleClient (List.replicate 32768 0) 0 1).isOk = false := by
  constructor
  · exact (c7_payload_limit exampleClient (List.replicate 32767 0) 0 1).1.mpr
      (le_of_eq (List.length_replicate 32767 0))
  · have h := (c7_payload_limit exampleClient (List.replicate 32768 0) 0 1).1
    rw [Bool.eq_false_iff]
    intro hT
    have h2 := h.mp hT
    rw [List.length_replicate] at h2
    omega

/-- Claim C8: construction fails with the tag-length error exactly when the
tag exceeds 10 characters, before any I/O: __init__ performs no socket
operation, so the successfully constructed state has zero connect attempts,
an empty event trace, no socket, and sequence 0. -/
theorem c8_tag_guard (tag host : String) (port : ℕ)
    (station channel location network : String)
    (activity ioclock quality timingquality : ℕ) :
    (10 < tag.length →
      init tag host port station channel location network
          activity ioclock quality timingquality
        = Except.error "Tag limited to 10 characters") ∧
    (tag.length ≤ 10 →
      ∃ s, init tag host port station channel location network
              activity ioclock quality timingquality = Except.ok s ∧
        s.attempts = 0 ∧ s.events = [] ∧ s.client.socket = none ∧
        s.client.sequence = 0 ∧ s.client.tag = tag) := by
  constructor
  · intro h
    rw [init, if_pos h]
  · intro h
    rw [init, if_neg (by omega)]
    exact ⟨_, rfl, rfl, rfl, rfl, rfl, rfl⟩

/-- Claim C8, witness: an 11-character tag is rejected with zero connect
attempts possible, and a 7-character tag is accepted. -/
theorem c8_witness :
    init "abcdefghijk" "h" 2060 "ANMO" "BH1" "10" "IU" 0 0 0 0
      = Except.error "Tag limited to 10 characters" ∧
    ∃ s, init "testtag" "h" 2060 "ANMO" "BH1" "10" "IU" 0 0 0 0 = Except.ok s ∧
      s.attempts = 0 ∧ s.events = [] ∧ s.client.socket = none ∧
      s.client.sequence = 0 ∧ s.client.tag = "testtag" :=
  ⟨(c8_tag_guard "abcdefghijk" "h" 2060 "ANMO" "BH1" "10" "IU" 0 0 0 0).1 (by decide),
   (c8_tag_guard "testtag" "h" 2060 "ANMO" "BH1" "10" "IU" 0 0 0 0).2 (by decide)⟩

/-- The open-socket retry loop never changes the sequence counter or the
recorded packet events. -/
lemma openLoop_preserves (connects : ℕ → Bool) :
    ∀ k trys s, 3 - trys ≤ k →
      ((openLoop connects trys s).1.client.sequence = s.client.sequence ∧
       sentPackets (openLoop connects trys s).1 = sentPackets s) := by
  intro k
  induction k with
  | zero =>
    intro trys s h
    have ht : 2 < trys := by omega
    rw [openLoop]
    cases hc : connects s.attempts <;>
      simp [ht, sentPackets]
  | succ n ih =>
    intro trys s h
    rw [openLoop]
    cases hc : connects s.attempts
    · by_cases ht : 2 < trys
      · simp [ht, sentPackets]
      · have := ih (trys + 1)
          { s with attempts := s.attempts + 1,
                   events := s.events ++ [NetEvent.sleep1] } (by omega)
        simp only [ht] at *
        simp [dif_neg ht] at *
        constructor
        · exact this.1
        · rw [this.2]
          simp [sentPackets]
    · by_cases ht : 2 < trys <;> simp [ht, sentPackets]

/-- When the socket is None, _send first runs _open_socket and then, if that
succeeded, does the sendall. -/
lemma send_none (connects : ℕ → Bool) (sendOk : Bool) (p : EdgePacket)
    (s : NetState) (hs : s.client.socket = none) :
    send connects sendOk p s =
      match open_socket connects s with
      | (s1, some e) => (s1, some e)
      | (s1, none) => sendPacket sendOk p s1 := by
  unfold send
  rw [hs]

/-- When the socket is already open, _send is just the sendall. -/
lemma send_some (connects : ℕ → Bool) (sendOk : Bool) (p : EdgePacket)
    (s : NetState) (u : Unit) (hs : s.client.socket = some u) :
    send connects sendOk p s = sendPacket sendOk p s := by
  unfold send
  rw [hs]

/-- Claim C10: a send that fails - whether the socket could not be opened or
sendall raised - leaves the sequence counter exactly as it was; the increment
happens only after a successful write. -/
theorem c10_sequence_on_failure (connects : ℕ → Bool) (sendOk : Bool)
    (p : EdgePacket) (s : NetState)
    (h : (send connects sendOk p s).2.isSome = true) :
    (send connects sendOk p s).1.client.sequence = s.client.sequence := by
  cases hsock : s.client.socket with
  | none =>
    rw [send_none connects sendOk p s hsock] at h ⊢
    have hopen : (open_socket connects s).1.client.sequence = s.client.sequence := by
      rw [open_socket]
      exact (openLoop_preserves connects 3 0 s (by omega)).1
    obtain ⟨s1, err, hres⟩ : ∃ s1 err, open_socket connects s = (s1, err) :=
      ⟨(open_socket connects s).1, (open_socket connects s).2, rfl⟩
    have h1 : (open_socket connects s).1 = s1 := by rw [hres]
    have hs1 : s1.client.sequence = s.client.sequence := by
      rw [← h1]
      exact hopen
    rw [hres] at h ⊢
    cases err with
    | none =>
      cases sendOk with
      | true => simp [sendPacket] at h
      | false => simpa [sendPacket] using hs1
    | some e => exact hs1
  | some u =>
    rw [send_some connects sendOk p s u hsock] at h ⊢
    cases sendOk with
    | true => simp [sendPacket] at h
    | false => simp [sendPacket]

/-- Claim C10, witness: a failing sendall on an open connection leaves the
sequence unchanged. -/
theorem c10_witness :
    (send (fun _ => true) false examplePacket exampleOpenNet).1.client.sequence
      = exampleOpenNet.client.sequence :=
  c10_sequence_on_failure (fun _ => true) false examplePacket exampleOpenNet
    (by simp [send, sendPacket, exampleOpenNet])

/-- Claim C2, counterexample.  With a connect stub that always fails,
_open_socket makes 4 connect attempts, not 3: the trys > 2 check runs after
the attempt (and its sleep), so attempts at trys = 0, 1, 2 and 3 all occur
before the raise. -/
theorem c2_counterexample :
    (open_socket (fun _ => false) exampleNet).1.attempts = 4 ∧
    (open_socket (fun _ => false) exampleNet).2 = some "Could not open socket" ∧
    ¬((open_socket (fun _ => false) exampleNet).1.attempts = 3) := by
  simp [open_socket, openLoop, exampleNet, exampleClient]

/-- Claim C2, amended.  _open_socket attempts TCP connect at most 4 times,
sleeping 1 second after each failed attempt: an always-failing stub produces
exactly 4 attempts and 4 sleeps and then the fatal failure; a stub failing
twice then succeeding produces a successful open with exactly 2 one-second
sleeps and 3 attempts, the tag being sent on success. -/
theorem c2_amended :
    ((open_socket (fun _ => false) exampleNet).1.attempts = 4 ∧
     sleepCount (open_socket (fun _ => false) exampleNet).1 = 4 ∧
     (open_socket (fun _ => false) exampleNet).2 = some "Could not open socket") ∧
    ((open_socket (fun n => decide (2 ≤ n)) exampleNet).2 = none ∧
     (open_socket (fun n => decide (2 ≤ n)) exampleNet).1.attempts = 3 ∧
     sleepCount (open_socket (fun n => decide (2 ≤ n)) exampleNet).1 = 2 ∧
     (open_socket (fun n => decide (2 ≤ n)) exampleNet).1.client.socket = some () ∧
     tagCount (open_socket (fun n => decide (2 ≤ n)) exampleNet).1 = 1) ∧
    (∀ connects : ℕ → Bool, (open_socket connects exampleNet).1.attempts ≤ 4) := by
  refine ⟨?_, ?_, ?_⟩
  · simp [open_socket, openLoop, exampleNet, exampleClient, sleepCount]
  · simp [open_socket, openLoop, exampleNet, exampleClient, sleepCount, tagCount]
  · intro c
    cases h0 : c 0 <;> cases h1 : c 1 <;> cases h2 : c 2 <;> cases h3 : c 3 <;>
      simp [open_socket, openLoop, exampleNet, exampleClient, h0, h1, h2, h3]

/-- Claim C9, counterexample.  A connection IS reused after close: close()
only sets the socket field to None, and the next _send finds the socket None
and transparently reopens it.  Concretely: open the connection by a first
send, close it, send again - the second send succeeds and makes a second
connect attempt, re-establishing the connection with no explicit reopen. -/
theorem c9_counterexample :
    (close (send (fun _ => true) true examplePacket exampleNet).1).client.socket
      = none ∧
    (send (fun _ => true) true examplePacket
        (close (send (fun _ => true) true examplePacket exampleNet).1)).2 = none ∧
    (send (fun _ => true) true examplePacket
        (close (send (fun _ => true) true examplePacket exampleNet).1)).1.client.socket
      = some () ∧
    (send (fun _ => true) true examplePacket
        (close (send (fun _ => true) true examplePacket exampleNet).1)).1.attempts
      = 2 := by
  simp [send, open_socket, openLoop, sendPacket, close, exampleNet, exampleClient]

/-- Claim C9, amended.  After close() the socket field is None and a
subsequent send on the same instance transparently opens a new socket (one
more connect attempt, no explicit reopen needed); by contrast, after a send
failure on an open socket, the socket field stays set, so a further send
makes no connect attempt (no auto-reconnect in that sense). -/
theorem c9_amended (s : NetState) (p q : EdgePacket) (c : ℕ → Bool) (k : Bool) :
    (close s).client.socket = none ∧
    (send (fun _ => true) true p (close s)).2 = none ∧
    (send (fun _ => true) true p (close s)).1.client.socket = some () ∧
    (send (fun _ => true) true p (close s)).1.attempts = s.attempts + 1 ∧
    (send c k q { s with client := { s.client with socket := some () } }).1.attempts
      = s.attempts ∧
    (send c false q { s with client := { s.client with socket := some () } }).1.client.socket
      = some () := by
  refine ⟨by simp [close], ?_, ?_, ?_, ?_, ?_⟩
  · simp [send, open_socket, openLoop, sendPacket, close]
  · simp [send, open_socket, openLoop, sendPacket, close]
  · simp [send, open_socket, openLoop, sendPacket, close]
  · cases k <;> simp [send, sendPacket]
  · simp [send, sendPacket]



/-- State after the first loop pass of the 150-sample 1 Hz run: connection
opened (tag sent), pkt0 transmitted. -/
def st1 : NetState :=
  { client := { exampleClient with socket := some (), sequence := 1 },
    attempts := 1,
    events := [NetEvent.tagSent (get_tag exampleClient), NetEvent.packetSent pkt0] }

/-- State after the second loop pass: pkt1 transmitted. -/
def st2 : NetState :=
  { client := { exampleClient with socket := some (), sequence := 2 },
    attempts := 1,
    events := [NetEvent.tagSent (get_tag exampleClient), NetEvent.packetSent pkt0,
               NetEvent.packetSent pkt1] }

/-- Unfolding equation for a loop pass of send_trace. -/
lemma sendTraceLoop_cons (c : ℕ → Bool) (k : Bool) (tr : Trace) (i : ℚ)
    (rest : List ℚ) (st ns : ℚ) (s : NetState) :
    sendTraceLoop c k tr (i :: rest) st ns s =
      match get_data s.client
          (tr.sliceData st
            (st + (((if (tr.data.length : ℚ) - i < ns then (tr.data.length : ℚ) else i + ns) - i) - 1) * 60))
          st tr.sampling_rate with
      | Except.error e => (s, some e)
      | Except.ok p =>
        match send c k p s with
        | (s1, some e) => (s1, some e)
        | (s1, none) =>
          sendTraceLoop c k tr rest
            (st + ((if (tr.data.length : ℚ) - i < ns then (tr.data.length : ℚ) else i + ns) - i) * 60)
            ((if (tr.data.length : ℚ) - i < ns then (tr.data.length : ℚ) else i + ns) - i) s1 := rfl

/-- The loop of send_trace does nothing on an empty index list. -/
lemma sendTraceLoop_nil (c : ℕ → Bool) (k : Bool) (tr : Trace) (st ns : ℚ)
    (s : NetState) : sendTraceLoop c k tr [] st ns s = (s, none) := rfl

/-- Successful encoding of a data packet. -/
lemma get_data_ok (c : RawInputClient) (samples : List ℤ) (t r : ℚ)
    (h : (samples.length : ℤ) ≤ 32767) :
    get_data c samples t r = Except.ok
      { head := PACKETHEAD, nsamp := (samples.length : ℤ), seedname := c.seedname,
        time := t, ratemantissa := (get_mantissa_divisor r).1,
        ratedivisor := (get_mantissa_divisor r).2, activity := c.activity,
        ioclock := c.ioclock, quality := c.quality,
        timingquality := c.timingquality, seq := c.sequence, samples := samples } := by
  rw [get_data, if_neg (by omega)]

/-- A send on a fresh connection with an immediately successful connect:
opens the socket, sends the tag, transmits the packet, increments sequence. -/
lemma send_fresh_ok (p : EdgePacket) (s : NetState) (hs : s.client.socket = none) :
    send (fun _ => true) true p s =
      ({ client := { s.client with socket := some (), sequence := s.client.sequence + 1 },
         attempts := s.attempts + 1,
         events := s.events ++ [NetEvent.tagSent (get_tag s.client),
                                NetEvent.packetSent p] }, none) := by
  rw [send_none _ _ _ _ hs, open_socket, openLoop]
  simp [sendPacket]

/-- A send on an open connection: transmits the packet, increments sequence. -/
lemma send_live_ok (c : ℕ → Bool) (p : EdgePacket) (s : NetState) (u : Unit)
    (hs : s.client.socket = some u) :
    send c true p s =
      ({ s with
          client := { s.client with sequence := s.client.sequence + 1 },
          events := s.events ++ [NetEvent.packetSent p] }, none) := by
  rw [send_some _ _ _ _ u hs]
  simp [sendPacket]

/-- First slice of the run: slice(0, 3540) of a 150-sample 1 Hz trace is the
whole trace. -/
lemma slice_full : exampleTrace.sliceData 0 3540 = List.replicate 150 0 := by
  simp only [Trace.sliceData, exampleTrace]
  norm_num
  rfl

/-- Second slice of the run: slice(3600, 7140) starts past the trace end. -/
lemma slice_empty1 : exampleTrace.sliceData 3600 7140 = [] := by
  simp only [Trace.sliceData, exampleTrace]
  norm_num

/-- Third slice of the run: slice(7200, 8940) starts past the trace end. -/
lemma slice_empty2 : exampleTrace.sliceData 7200 8940 = [] := by
  simp only [Trace.sliceData, exampleTrace]
  norm_num

/-- The loop index list of the run: range(0, 150, 60). -/
lemma range150 : rangeBy ((150:ℕ):ℚ) 60 = [0, 60, 120] := by
  have hceil : ⌈((150:ℕ):ℚ)/60⌉ = 3 := by
    rw [show (((150:ℕ):ℚ))/60 = 5/2 by norm_num]
    rw [Int.ceil_eq_iff]
    norm_num
  rw [rangeBy, if_neg (by norm_num), hceil]
  rw [show List.range (Int.toNat 3) = [0, 1, 2] from rfl]
  norm_num

/-- First loop pass of the run. -/
lemma run150_s1 :
    sendTraceLoop (fun _ => true) true exampleTrace [0, 60, 120] 0 60 exampleNet
      = sendTraceLoop (fun _ => true) true exampleTrace [60, 120] 3600 60 st1 := by
  rw [sendTraceLoop_cons]
  rw [show exampleTrace.data.length = 150 from by simp [exampleTrace]]
  rw [if_neg (show ¬(((150:ℕ):ℚ) - 0 < 60) from by norm_num)]
  norm_num
  rw [show exampleTrace.sampling_rate = 1 from rfl]
  rw [slice_full]
  rw [get_data_ok exampleNet.client (List.replicate 150 0) 0 1 (by simp)]
  simp only [gmd_one]
  rw [send_fresh_ok _ exampleNet rfl]
  rfl

/-- Second loop pass of the run. -/
lemma run150_s2 :
    sendTraceLoop (fun _ => true) true exampleTrace [60, 120] 3600 60 st1
      = sendTraceLoop (fun _ => true) true exampleTrace [120] 7200 60 st2 := by
  rw [sendTraceLoop_cons]
  rw [show exampleTrace.data.length = 150 from by simp [exampleTrace]]
  rw [if_neg (show ¬(((150:ℕ):ℚ) - 60 < 60) from by norm_num)]
  norm_num
  rw [show exampleTrace.sampling_rate = 1 from rfl]
  rw [slice_empty1]
  rw [get_data_ok st1.client [] 3600 1 (by simp)]
  simp only [gmd_one]
  rw [send_live_ok (fun _ => true) _ st1 () rfl]
  rfl

/-- Third loop pass of the run: the final short chunk. -/
lemma run150_s3 :
    sendTraceLoop (fun _ => true) true exampleTrace [120] 7200 60 st2
      = (run150State, none) := by
  rw [sendTraceLoop_cons]
  rw [show exampleTrace.data.length = 150 from by simp [exampleTrace]]
  rw [if_pos (show ((150:ℕ):ℚ) - 120 < 60 from by norm_num)]
  norm_num
  rw [show exampleTrace.sampling_rate = 1 from rfl]
  rw [slice_empty2]
  rw [get_data_ok st2.client [] 7200 1 (by simp)]
  simp only [gmd_one]
  rw [send_live_ok (fun _ => true) _ st2 () rfl]
  rfl

/-- Evaluation of send_trace on 150 samples of 1 Hz data: three loop passes,
sending 150, 0 and 0 samples at chunk start times 0, 3600 and 7200. -/
lemma run150 : send_trace (fun _ => true) true exampleTrace exampleNet = (run150State, none) := by
  rw [send_trace]
  rw [show exampleTrace.sampling_rate = 1 from rfl,
      show exampleTrace.starttime = 0 from rfl,
      show exampleTrace.data.length = 150 from by simp [exampleTrace]]
  rw [show (1:ℚ) * 60 = 60 by norm_num]
  rw [range150]
  rw [run150_s1, run150_s2, run150_s3]

/-- Claim C1: evaluation of the chunk planning at the failing input, a
150-sample channel of 1 Hz data.  The loop runs three times, but because the
source uses timeoffset = 60 seconds as if it were the sample period, the
first chunk slices 3540 seconds of trace (all 150 samples) and the start
times attached to the later chunks advance by 3600 seconds per pass: the
transmitted (start time, sample count, sequence) triples are
(0, 150, 0), (3600, 0, 1), (7200, 0, 2) - not the (0, 60, 0), (60, 60, 1),
(120, 30, 2) the claim (and the comment "chunks of a minute") require. -/
theorem c1_chunk_eval :
    ((sentPackets (send_trace (fun _ => true) true exampleTrace exampleNet).1).map
        (fun p => (p.time, p.samples.length, p.seq))
      = [((0:ℚ), 150, (0:ℤ)), (3600, 0, 1), (7200, 0, 2)]) ∧
    ¬(((sentPackets (send_trace (fun _ => true) true exampleTrace exampleNet).1).map
        (fun p => (p.time, p.samples.length, p.seq)))
      = [((0:ℚ), 60, (0:ℤ)), (60, 60, 1), (120, 30, 2)]) := by
  have hmap : (sentPackets (send_trace (fun _ => true) true exampleTrace exampleNet).1).map
      (fun p => (p.time, p.samples.length, p.seq))
      = [((0:ℚ), 150, (0:ℤ)), (3600, 0, 1), (7200, 0, 2)] := by
    rw [run150]
    simp [run150State, sentPackets, pkt0, pkt1, pkt2]
  refine ⟨hmap, ?_⟩
  rw [hmap]
  intro hcontra
  norm_num at hcontra

/-- Claim C3, counterexample.  send_trace alone sends the data chunks and
nothing else: the 150-sample 1 Hz channel send transmits no forceout packet
(forceout is only ever sent by an explicit forceout() call, which neither
send_trace nor store_stream makes), refuting "sending one full channel
transmits, after the last data chunk, exactly one forceout packet". -/
theorem c3_counterexample :
    ((sentPackets (send_trace (fun _ => true) true exampleTrace exampleNet).1).filter
        (fun p => p.nsamp == FORCEOUT)).length = 0 ∧
    ¬(((sentPackets (send_trace (fun _ => true) true exampleTrace exampleNet).1).filter
        (fun p => p.nsamp == FORCEOUT)).length = 1) := by
  have hflt : ((sentPackets (send_trace (fun _ => true) true exampleTrace
      exampleNet).1).filter (fun p => p.nsamp == FORCEOUT)).length = 0 := by
    rw [run150]
    simp [run150State, sentPackets, pkt0, pkt1, pkt2, FORCEOUT]
  exact ⟨hflt, by rw [hflt]; omega⟩

/-- The state after send_trace on the 150-sample channel followed by an
explicit forceout() at instant 150. -/
lemma run150_forceout :
    forceout (fun _ => true) true 150
        (send_trace (fun _ => true) true exampleTrace exampleNet).1
      = ({ client := { exampleClient with socket := some (), sequence := 4 },
           attempts := 1,
           events := [NetEvent.tagSent (get_tag exampleClient),
                      NetEvent.packetSent pkt0, NetEvent.packetSent pkt1,
                      NetEvent.packetSent pkt2, NetEvent.packetSent pkt3] },
         none) := by
  rw [run150]
  rw [show ((run150State, (none : Option String)).1) = run150State from rfl]
  rw [forceout]
  rw [show get_forceout run150State.client 150 0 = pkt3 from by
    simp [get_forceout, run150State, pkt3, gmd_zero, exampleClient, FORCEOUT]]
  rw [send_live_ok (fun _ => true) pkt3 run150State () rfl]
  simp [run150State]

/-- Claim C3, amended.  send_trace transmits only data packets; a forceout
goes out only on an explicit forceout() call.  When the 3-pass channel send
is followed by such a call, the wire sequence numbers are exactly 0, 1, 2 on
the three data packets and 3 on the forceout; the tag packet (sent once,
during the open triggered by the first send, before any data packet) carries
no sequence slot, the sequence starts at 0, and every successfully
transmitted packet increments the sequence by exactly one regardless of
kind. -/
theorem c3_amended :
    ((sentPackets (forceout (fun _ => true) true 150
          (send_trace (fun _ => true) true exampleTrace exampleNet).1).1).map
        (fun p => (p.nsamp, p.seq))
      = [((150:ℤ), (0:ℤ)), (0, 1), (0, 2), (-2, 3)]) ∧
    tagCount (forceout (fun _ => true) true 150
        (send_trace (fun _ => true) true exampleTrace exampleNet).1).1 = 1 ∧
    exampleNet.client.sequence = 0 ∧
    (∀ p : EdgePacket, ∀ s : NetState,
      (send (fun _ => true) true p s).1.client.sequence = s.client.sequence + 1) := by
  refine ⟨?_, ?_, rfl, ?_⟩
  · rw [run150_forceout]
    simp [sentPackets, pkt0, pkt1, pkt2, pkt3]
  · rw [run150_forceout]
    simp [tagCount]
  · intro p s
    cases hsock : s.client.socket with
    | none => rw [send_fresh_ok p s hsock]
    | some u => rw [send_live_ok (fun _ => true) p s u hsock]

end Cwb
